import Mathlib

set_option linter.unusedVariables false
set_option linter.unnecessarySeqFocus false

/-!
Verification development for the prtsc-wayland screenshot tool.

Shallow embedding of the program parts relevant to the checked properties:

* `src/points.rs`    — points, quadrant classification, rectangles, lines,
  figures from two points (pure geometry; `PointInt = u32` is modelled as
  `Nat`; every subtraction in the embedded code is guarded by a comparison
  in the branch it occurs in, and every addition produced by these
  operations stays below the sum of the input coordinates, so no u32
  wrap-around is reachable and `Nat` arithmetic agrees with the source).
* `src/app/selection.rs` — the selection state machine (`SelectionApp`):
  key/mouse handlers and the redraw pass `on_redraw` with its pixel
  operations (`dim_rect`, `copy_rect`, `dim_crosshair`, `fill_crosshair`).
  The canvas and captured image are byte lists; `List.set` / `List.getD`
  are used for element access (all concrete accesses used in the theorems
  below are in bounds, matching the panic-free executions of the source).
  Damage declarations (`wl_surface.damage_buffer`) are collected as a list
  of rectangles; a commit (`attach + commit + frame request`) is a flag.
* `src/app/screenshot.rs` — the screencopy handshake handler
  (`zwlr_screencopy_frame_event`): `Buffer` / `Ready` events over the
  state `{image, buffer, buffer_format}`.  A Rust `panic!` /
  `unimplemented!` is modelled as `Except.error`.
* `src/app.rs` — the staged context `Base -> Partial -> Full`
  (`WaylandAppManager::initialize_partial` / `initialize_full`); the
  environment answers (outputs, metadata, bind results) are a record of
  oracles, a `panic!` is an explicit `panicked` result.
-/

/-- PointInt = u32; point with structural equality (`src/points.rs`). -/
structure Point where
  x : Nat
  y : Nat
deriving DecidableEq, Repr

/-- Axis-aligned rectangle: top-left start, width, height (`src/points.rs`). -/
structure Rectangle where
  start : Point
  width : Nat
  height : Nat
deriving DecidableEq, Repr

/-- Direction of a `Line` (`src/points.rs`). -/
inductive LineDir where
  | Horizontal
  | Vertical
deriving DecidableEq, Repr

/-- Axis-aligned line segment (`src/points.rs`). -/
structure Line where
  start : Point
  length : Nat
  direction : LineDir
deriving DecidableEq, Repr

/-- Quadrant classification of one point relative to another (`src/points.rs`). -/
inductive Quater where
  | TopRight
  | TopLeft
  | BottomLeft
  | BottomRight
  | AxisX
  | AxisY
  | Centre
deriving DecidableEq, Repr

/-- Named corner of a rectangle (`src/points.rs`). -/
inductive Corner where
  | TopRight
  | TopLeft
  | BottomLeft
  | BottomRight
deriving DecidableEq, Repr

/-- Figure built from two points (`src/points.rs`). -/
inductive ByTwoPoints where
  | Rectangle (r : Rectangle)
  | Line (l : Line)
  | Point (p : Point)
deriving DecidableEq, Repr

/-- `Point::quater` — match on `(self.x.cmp(&point.x), self.y.cmp(&point.y))`
(`src/points.rs` lines 70-80). -/
def Point.quater (self point : Point) : Quater :=
  match compare self.x point.x, compare self.y point.y with
  | .eq, .eq => .Centre
  | .lt, .gt => .TopRight
  | .lt, .lt => .BottomRight
  | .gt, .lt => .BottomLeft
  | .gt, .gt => .TopLeft
  | .eq, _ => .AxisY
  | _, .eq => .AxisX

/-- `Point::is_same_quater` (`src/points.rs` line 82). -/
def Point.isSameQuater (self a b : Point) : Bool :=
  self.quater a = self.quater b

/-- `u32::abs_diff` on the `Nat` model. -/
def absDiff (a b : Nat) : Nat :=
  if a ≤ b then b - a else a - b

/-- `Rectangle::from_two_points` (`src/points.rs` lines 123-145).  The source
recurses once with swapped arguments in the `TopLeft | BottomLeft` branch;
since in that branch `b.quater a` is exactly `BottomRight` resp. `TopRight`
(see theorem `quater_point_reflection` below), the single recursive call is
inlined here; the unreachable inner arms yield `none` like the outer
catch-all.  The subtractions are guarded by the quadrant so `Nat`
subtraction agrees with u32 subtraction. -/
def Rectangle.fromTwoPoints (a b : Point) : Option Rectangle :=
  match a.quater b with
  | .BottomRight => some { start := a, width := b.x - a.x, height := b.y - a.y }
  | .TopRight => some { start := ⟨a.x, b.y⟩, width := b.x - a.x, height := a.y - b.y }
  | .TopLeft | .BottomLeft =>
    match b.quater a with
    | .BottomRight => some { start := b, width := a.x - b.x, height := a.y - b.y }
    | .TopRight => some { start := ⟨b.x, a.y⟩, width := a.x - b.x, height := b.y - a.y }
    | _ => none
  | _ => none

/-- `Rectangle::is_degenerate` (`src/points.rs` line 147). -/
def Rectangle.isDegenerate (r : Rectangle) : Bool :=
  r.height = 0 || r.width = 0

/-- `Rectangle::corner` (`src/points.rs` lines 159-177). -/
def Rectangle.corner (r : Rectangle) (c : Corner) : Point :=
  match c with
  | .TopLeft => r.start
  | .TopRight => ⟨r.start.x + r.width, r.start.y⟩
  | .BottomLeft => ⟨r.start.x, r.start.y + r.height⟩
  | .BottomRight => ⟨r.start.x + r.width, r.start.y + r.height⟩

/-- `Line::from_two_points` (`src/points.rs` lines 191-206). -/
def Line.fromTwoPoints (a b : Point) : Option Line :=
  if a.x = b.x then
    some { start := if a.y ≤ b.y then a else b
           length := absDiff b.y a.y
           direction := .Vertical }
  else if a.y = b.y then
    some { start := if a.x ≤ b.x then a else b
           length := absDiff b.x a.x
           direction := .Horizontal }
  else
    none

/-- `Line::is_degenerate` (`src/points.rs` line 208). -/
def Line.isDegenerate (l : Line) : Bool :=
  l.length = 0

/-- `Point::into_figure` (`src/points.rs` lines 87-100).  The two
`.expect(..)` calls of the source are modelled as `none` (a panic). -/
def Point.intoFigure (self other : Point) : Option ByTwoPoints :=
  match self.quater other with
  | .BottomLeft | .TopLeft | .TopRight | .BottomRight =>
    match Rectangle.fromTwoPoints self other with
    | some r => some (.Rectangle r)
    | none => none
  | .AxisX | .AxisY =>
    match Line.fromTwoPoints self other with
    | some l => some (.Line l)
    | none => none
  | .Centre => some (.Point self)

/-- Pairing of quadrants under swapping the two argument points (the
point-reflection of the claim about `Point::quater`). -/
def Quater.reflect : Quater → Quater
  | .TopLeft => .BottomRight
  | .BottomRight => .TopLeft
  | .TopRight => .BottomLeft
  | .BottomLeft => .TopRight
  | .AxisX => .AxisX
  | .AxisY => .AxisY
  | .Centre => .Centre

/-! ## Selection engine (`src/app/selection.rs`) -/

/-- `SelectionState` (`src/app/selection.rs` lines 41-52). -/
inductive SelectionState where
  | Waiting
  | BeginSelection (initial current : Point) (pending : Option Point)
  | SelectionCompleted (r : Rectangle)
  | Abort
deriving DecidableEq, Repr

/-- The part of the full Wayland context that `SelectionApp` reads during a
redraw: the captured image bytes, the logical size, and whether
`pool.canvas(buffer)` currently yields a writable canvas (it is `None`
while the compositor still holds the buffer). -/
structure SelCtx where
  image : List Nat
  width : Nat
  height : Nat
  canvasAvailable : Bool
deriving DecidableEq, Repr

/-- Result of one handler invocation: the new selection state, the
presentation canvas bytes, the damage rectangles declared to the surface
(in call order), and whether the buffer was committed/presented. -/
structure RedrawOut where
  state : SelectionState
  canvas : List Nat
  damage : List Rectangle
  committed : Bool
deriving DecidableEq, Repr

/-- `utils::dim_u8` (`src/app/selection.rs` lines 640-644): `src * 128 / 256`
(for byte inputs the result is below 128, so the `as u8` cast is the
identity). -/
def dim_u8 (src : Nat) : Nat :=
  src * 128 / 256

/-- Dim the four bytes at index `i` of `canvas` from `image` (the four
per-byte assignments of the source loops). -/
def dimBytes4 (image canvas : List Nat) (i : Nat) : List Nat :=
  ((((canvas.set i (dim_u8 (image.getD i 0))).set (i + 1)
      (dim_u8 (image.getD (i + 1) 0))).set (i + 2)
      (dim_u8 (image.getD (i + 2) 0))).set (i + 3)
      (dim_u8 (image.getD (i + 3) 0)))

/-- Set the four bytes at index `i` of `canvas` to 255. -/
def fillBytes4 (canvas : List Nat) (i : Nat) : List Nat :=
  ((((canvas.set i 255).set (i + 1) 255).set (i + 2) 255).set (i + 3) 255)

/-- `utils::dim_rect` (`src/app/selection.rs` lines 646-671): dim every pixel
of `rect`, then (with a layer) damage exactly `rect`. -/
def dim_rect (rect : Rectangle) (canvas image : List Nat) (width : Nat)
    (layer : Bool) : List Nat × List Rectangle :=
  let c := (List.range' rect.start.x rect.width).foldl (fun c col =>
    (List.range' rect.start.y rect.height).foldl (fun c row =>
      dimBytes4 image c ((row * width + col) * 4)) c) canvas
  (c, if layer then [rect] else [])

/-- `utils::copy_rect` (`src/app/selection.rs` lines 617-638): copy the rows
of `rect` from `image` into `canvas`, then damage exactly `rect`. -/
def copy_rect (rect : Rectangle) (canvas image : List Nat) (width : Nat)
    (layer : Bool) : List Nat × List Rectangle :=
  let c := (List.range' rect.start.y rect.height).foldl (fun c row =>
    (List.range' (width * row * 4 + rect.start.x * 4) (rect.width * 4)).foldl
      (fun c i => c.set i (image.getD i 0)) c) canvas
  (c, if layer then [rect] else [])

/-- `utils::dim_crosshair` (`src/app/selection.rs` lines 673-706). -/
def dim_crosshair (pos : Point) (canvas image : List Nat)
    (width height : Nat) (layer : Bool) : List Nat × List Rectangle :=
  let c := (List.range height).foldl (fun c r =>
    dimBytes4 image c ((pos.x + r * width) * 4)) canvas
  let c := (List.range' (width * pos.y) width).foldl (fun c p =>
    dimBytes4 image c (p * 4)) c
  (c, if layer then [⟨⟨pos.x, 0⟩, 1, height⟩, ⟨⟨0, pos.y⟩, width, 1⟩] else [])

/-- `utils::fill_crosshair` (`src/app/selection.rs` lines 708-734). -/
def fill_crosshair (pos : Point) (canvas : List Nat)
    (width height : Nat) (layer : Bool) : List Nat × List Rectangle :=
  let c := (List.range height).foldl (fun c r =>
    fillBytes4 c ((pos.x + r * width) * 4)) canvas
  let c := (List.range' (width * pos.y * 4) (width * 4)).foldl
    (fun c i => c.set i 255) c
  (c, if layer then [⟨⟨pos.x, 0⟩, 1, height⟩, ⟨⟨0, pos.y⟩, width, 1⟩] else [])

/-- `SelectionApp::on_redraw` (`src/app/selection.rs` lines 192-256).
If no canvas is available the handler returns untouched.  In state
`BeginSelection` with a pending point different from `current` it undoes
the crosshair at `current`, dims the old rectangle, copies the new one,
draws both crosshairs, sets `current := pending` and commits.  In state
`Waiting` it dims the whole surface and commits.  Anything else returns
untouched. -/
def on_redraw (st : SelectionState) (ctx : SelCtx) (canvas : List Nat) :
    RedrawOut :=
  match ctx.canvasAvailable with
  | false => ⟨st, canvas, [], false⟩
  | true =>
    match st with
    | .BeginSelection initial current (some pending) =>
      if current ≠ pending then
        let p1 := dim_crosshair current canvas ctx.image ctx.width ctx.height true
        let p2 := match Rectangle.fromTwoPoints initial current with
          | some rect => dim_rect rect p1.1 ctx.image ctx.width true
          | none => (p1.1, [])
        let p3 := match Rectangle.fromTwoPoints initial pending with
          | some rect => copy_rect rect p2.1 ctx.image ctx.width true
          | none => (p2.1, [])
        let p4 := fill_crosshair initial p3.1 ctx.width ctx.height true
        let p5 := fill_crosshair pending p4.1 ctx.width ctx.height true
        ⟨.BeginSelection initial pending (some pending), p5.1,
          p1.2 ++ p2.2 ++ p3.2 ++ p4.2 ++ p5.2, true⟩
      else ⟨st, canvas, [], false⟩
    | .Waiting =>
      let p := dim_rect ⟨⟨0, 0⟩, ctx.width, ctx.height⟩ canvas ctx.image
        ctx.width true
      ⟨.Waiting, p.1, p.2, true⟩
    | _ => ⟨st, canvas, [], false⟩

/-- Key symbols relevant to `SelectionApp::on_key_press`. -/
inductive Keysym where
  | escape
  | otherKey
deriving DecidableEq, Repr

/-- `SelectionApp::on_key_press` (`src/app/selection.rs` lines 109-123):
Escape in `Waiting` aborts; Escape in any other state resets to `Waiting`
and immediately runs `on_redraw`. -/
def on_key_press (key : Keysym) (st : SelectionState) (ctx : SelCtx)
    (canvas : List Nat) : RedrawOut :=
  match key with
  | .escape =>
    match st with
    | .Waiting => ⟨.Abort, canvas, [], false⟩
    | _ => on_redraw .Waiting ctx canvas
  | .otherKey => ⟨st, canvas, [], false⟩

/-- `SelectionApp::on_mouse_move` (`src/app/selection.rs` lines 139-149):
in `BeginSelection` record the position as `pending` and immediately call
`on_redraw`; otherwise ignore. -/
def on_mouse_move (st : SelectionState) (ctx : SelCtx) (canvas : List Nat)
    (pos : Point) : RedrawOut :=
  match st with
  | .BeginSelection initial current _pending =>
    on_redraw (.BeginSelection initial current (some pos)) ctx canvas
  | _ => ⟨st, canvas, [], false⟩

/-- `SelectionApp::on_mouse_press` (`src/app/selection.rs` lines 150-165). -/
def on_mouse_press (st : SelectionState) (pos : Point) : SelectionState :=
  match st with
  | .Waiting => .BeginSelection pos pos none
  | _ => st

/-- `SelectionApp::on_mouse_release` (`src/app/selection.rs` lines 166-189):
in `BeginSelection` build the rectangle from `initial` and `current`; if it
is degenerate the source executes `todo!(..)` — a panic, modelled as
`none`; otherwise the state becomes `SelectionCompleted`. -/
def on_mouse_release (st : SelectionState) : Option SelectionState :=
  match st with
  | .BeginSelection initial current _pending =>
    match Rectangle.fromTwoPoints initial current with
    | none => none
    | some rect => some (.SelectionCompleted rect)
  | _ => some st

/-- Pending point of a selection state. -/
def SelectionState.pendingOf : SelectionState → Option Point
  | .BeginSelection _ _ p => p
  | _ => none

/-! ## Capture phase (`src/app/screenshot.rs`) -/

/-- Pixel formats: the two blue-first 32-bit formats the source accepts,
two red-first 32-bit formats, and everything else by numeric id. -/
inductive WlFormat where
  | Xrgb8888
  | Argb8888
  | Xbgr8888
  | Abgr8888
  | otherFormat (id : Nat)
deriving DecidableEq, Repr

/-- Screencopy events reaching `ScreenshotApp::zwlr_screencopy_frame_event`.
`bufferEv` carries the announced format; `readyEv` carries the raw bytes
the compositor wrote into the allocated pool slot (read by the handler via
`pool.raw_data_mut`); all other protocol events are `otherEv`. -/
inductive FrameEvent where
  | bufferEv (format : WlFormat)
  | readyEv (raw : List Nat)
  | otherEv
deriving DecidableEq, Repr

/-- State of `ScreenshotApp` (`src/app/screenshot.rs` lines 25-30): the
final image, the allocated buffer (contents irrelevant until ready), and
the format announced by the `Buffer` event. -/
structure ScreenshotState where
  image : Option (List Nat)
  buffer : Option Unit
  buffer_format : Option WlFormat
deriving DecidableEq, Repr

/-- `ScreenshotApp` as built by `from_previous`: no image, no buffer, no
format (`src/app/screenshot.rs` lines 50-55). -/
def screenshotInit : ScreenshotState :=
  ⟨none, none, none⟩

/-- `ScreenshotApp::zwlr_screencopy_frame_event` (`src/app/screenshot.rs`
lines 93-161).  `Buffer` records the format and allocates the buffer.
`Ready` panics (`Except.error`) when no buffer was allocated; panics
(`unimplemented!`) unless the recorded format is `Xrgb8888` or `Argb8888`;
otherwise it stores the raw pool bytes, unchanged, as the image. -/
def zwlr_screencopy_frame_event (s : ScreenshotState) (e : FrameEvent) :
    Except String ScreenshotState :=
  match e with
  | .bufferEv format =>
    .ok { s with buffer_format := some format, buffer := some () }
  | .readyEv raw =>
    match s.buffer with
    | none =>
      .error "zwlr_screencopy_manager_v1 send ready event without any buffers"
    | some _ =>
      match s.buffer_format with
      | some .Xrgb8888 => .ok { s with image := some raw }
      | some .Argb8888 => .ok { s with image := some raw }
      | _ => .error "got yet unimplemented buffer format, it is a bug"
  | .otherEv => .ok s

/-- Run a list of screencopy events through the handler. -/
def runFrameEvents (s : ScreenshotState) : List FrameEvent →
    Except String ScreenshotState
  | [] => .ok s
  | e :: es =>
    match zwlr_screencopy_frame_event s e with
    | .ok s1 => runFrameEvents s1 es
    | .error m => .error m

/-- Modelled from the spec (refinement comparison only, not source code):
the normalization the spec describes for blue-first formats — swap the
red and blue bytes (bytes 0 and 2) of every 32-bit pixel. -/
def specSwapRedBlue : List Nat → List Nat
  | b0 :: b1 :: b2 :: b3 :: rest => b2 :: b1 :: b0 :: b3 :: specSwapRedBlue rest
  | l => l

/-! ## Staged context (`src/app.rs`) -/

/-- Stage of `WaylandContextKind` (`src/app.rs` lines 58-64): `nilCtx` is the
placeholder `__Nil`, then Base, Partial, Full. -/
inductive CtxKind where
  | nilCtx
  | baseCtx
  | partialCtx
  | fullCtx
deriving DecidableEq, Repr

/-- `app::Error` (`src/app.rs` lines 384-397). -/
inductive AppError where
  | Zwlr
  | Compositor
  | LayerShell
  | Shm
  | CreatePool
  | Global
  | Dispatch
  | Connect
  | NoOutput
  | NoOutputInfo
  | NoOutputLogicalSize
deriving DecidableEq, Repr

/-- Environment oracle for the context transitions: whether an output is
enumerated, whether its metadata and logical size are reported, and
whether the individual protocol binds succeed. -/
structure WlEnv where
  hasOutput : Bool
  hasOutputInfo : Bool
  logicalSize : Option (Nat × Nat)
  shmOk : Bool
  poolOk : Bool
  compositorOk : Bool
  layerShellOk : Bool
deriving DecidableEq, Repr

/-- Result of a context transition: advanced, a typed error (the context is
returned untouched — in the source the error paths all return before the
`mem::replace` of the context), or a panic. -/
inductive CtxStepResult where
  | ok (ctx : CtxKind)
  | err (e : AppError) (ctx : CtxKind)
  | panicked (msg : String)
deriving DecidableEq, Repr

/-- `WaylandAppManager::initialize_partial` (`src/app.rs` lines 263-297):
check output, output info, logical size, bind shm, create the pool — each
failure returns its own error with the context untouched — then replace
the context, panicking unless it was at `Base`. -/
def initializePartialCtx (env : WlEnv) (ctx : CtxKind) : CtxStepResult :=
  if env.hasOutput = false then .err .NoOutput ctx
  else if env.hasOutputInfo = false then .err .NoOutputInfo ctx
  else
    match env.logicalSize with
    | none => .err .NoOutputLogicalSize ctx
    | some _ =>
      if env.shmOk = false then .err .Shm ctx
      else if env.poolOk = false then .err .CreatePool ctx
      else
        match ctx with
        | .baseCtx => .ok .partialCtx
        | _ =>
          .panicked "attempt to initialize context stage that is already initialized"

/-- `WaylandAppManager::initialize_full` (`src/app.rs` lines 299-339):
bind compositor and layer shell — each failure returns its own error with
the context untouched — then replace the context, panicking unless it was
at `Partial`. -/
def initializeFullCtx (env : WlEnv) (ctx : CtxKind) : CtxStepResult :=
  if env.compositorOk = false then .err .Compositor ctx
  else if env.layerShellOk = false then .err .LayerShell ctx
  else
    match ctx with
    | .partialCtx => .ok .fullCtx
    | _ => .panicked "attempt to initialize full context on wrong stage"

/-- Does a figure variant match a quadrant: rectangles for the four diagonal
quadrants, lines for the axes, the point for coincidence. -/
def figureMatchesQuater (f : ByTwoPoints) (q : Quater) : Bool :=
  match f, q with
  | .Rectangle _, .TopLeft => true
  | .Rectangle _, .TopRight => true
  | .Rectangle _, .BottomLeft => true
  | .Rectangle _, .BottomRight => true
  | .Line _, .AxisX => true
  | .Line _, .AxisY => true
  | .Point _, .Centre => true
  | _, _ => false

/-! ## Basic comparison lemmas -/

theorem natCompare_lt {a b : Nat} (h : a < b) : compare a b = .lt := by
  simp [Nat.compare_eq_lt, h]

theorem natCompare_eq {a b : Nat} (h : a = b) : compare a b = .eq := by
  simp [Nat.compare_eq_eq, h]

theorem natCompare_gt {a b : Nat} (h : b < a) : compare a b = .gt := by
  simp [Nat.compare_eq_gt, h]

/-! ## Quadrant characterization -/

theorem quater_centre {a b : Point} (hx : a.x = b.x) (hy : a.y = b.y) :
    Point.quater a b = .Centre := by
  unfold Point.quater
  rw [natCompare_eq hx, natCompare_eq hy]

theorem quater_tr {a b : Point} (hx : a.x < b.x) (hy : b.y < a.y) :
    Point.quater a b = .TopRight := by
  unfold Point.quater
  rw [natCompare_lt hx, natCompare_gt hy]

theorem quater_br {a b : Point} (hx : a.x < b.x) (hy : a.y < b.y) :
    Point.quater a b = .BottomRight := by
  unfold Point.quater
  rw [natCompare_lt hx, natCompare_lt hy]

theorem quater_bl {a b : Point} (hx : b.x < a.x) (hy : a.y < b.y) :
    Point.quater a b = .BottomLeft := by
  unfold Point.quater
  rw [natCompare_gt hx, natCompare_lt hy]

theorem quater_tl {a b : Point} (hx : b.x < a.x) (hy : b.y < a.y) :
    Point.quater a b = .TopLeft := by
  unfold Point.quater
  rw [natCompare_gt hx, natCompare_gt hy]

theorem quater_axisY_up {a b : Point} (hx : a.x = b.x) (hy : a.y < b.y) :
    Point.quater a b = .AxisY := by
  unfold Point.quater
  rw [natCompare_eq hx, natCompare_lt hy]

theorem quater_axisY_down {a b : Point} (hx : a.x = b.x) (hy : b.y < a.y) :
    Point.quater a b = .AxisY := by
  unfold Point.quater
  rw [natCompare_eq hx, natCompare_gt hy]

theorem quater_axisX_right {a b : Point} (hx : a.x < b.x) (hy : a.y = b.y) :
    Point.quater a b = .AxisX := by
  unfold Point.quater
  rw [natCompare_lt hx, natCompare_eq hy]

theorem quater_axisX_left {a b : Point} (hx : b.x < a.x) (hy : a.y = b.y) :
    Point.quater a b = .AxisX := by
  unfold Point.quater
  rw [natCompare_gt hx, natCompare_eq hy]

/-! ## Rectangle construction lemmas -/

theorem ftp_br {a b : Point} (hx : a.x < b.x) (hy : a.y < b.y) :
    Rectangle.fromTwoPoints a b =
      some ⟨a, b.x - a.x, b.y - a.y⟩ := by
  unfold Rectangle.fromTwoPoints
  rw [quater_br hx hy]

theorem ftp_tr {a b : Point} (hx : a.x < b.x) (hy : b.y < a.y) :
    Rectangle.fromTwoPoints a b =
      some ⟨⟨a.x, b.y⟩, b.x - a.x, a.y - b.y⟩ := by
  unfold Rectangle.fromTwoPoints
  rw [quater_tr hx hy]

theorem ftp_tl {a b : Point} (hx : b.x < a.x) (hy : b.y < a.y) :
    Rectangle.fromTwoPoints a b =
      some ⟨b, a.x - b.x, a.y - b.y⟩ := by
  unfold Rectangle.fromTwoPoints
  rw [quater_tl hx hy, quater_br hx hy]

theorem ftp_bl {a b : Point} (hx : b.x < a.x) (hy : a.y < b.y) :
    Rectangle.fromTwoPoints a b =
      some ⟨⟨b.x, a.y⟩, a.x - b.x, b.y - a.y⟩ := by
  unfold Rectangle.fromTwoPoints
  rw [quater_bl hx hy, quater_tr hx hy]

theorem ftp_none {a b : Point} (h : a.x = b.x ∨ a.y = b.y) :
    Rectangle.fromTwoPoints a b = none := by
  unfold Rectangle.fromTwoPoints
  rcases h with h | h
  · rcases Nat.lt_trichotomy a.y b.y with hy | hy | hy
    · rw [quater_axisY_up h hy]
    · rw [quater_centre h hy]
    · rw [quater_axisY_down h hy]
  · rcases Nat.lt_trichotomy a.x b.x with hx | hx | hx
    · rw [quater_axisX_right hx h]
    · rw [quater_centre hx h]
    · rw [quater_axisX_left hx h]

theorem point_eq {p q : Point} (hx : p.x = q.x) (hy : p.y = q.y) : p = q := by
  cases p
  cases q
  cases hx
  cases hy
  rfl

theorem line_fromTwoPoints_isSome {a b : Point} (h : a.x = b.x ∨ a.y = b.y) :
    ∃ l, Line.fromTwoPoints a b = some l := by
  unfold Line.fromTwoPoints
  rcases h with h | h
  · rw [if_pos h]
    exact ⟨_, rfl⟩
  · by_cases hx : a.x = b.x
    · rw [if_pos hx]
      exact ⟨_, rfl⟩
    · rw [if_neg hx, if_pos h]
      exact ⟨_, rfl⟩

/-! ## Claim C8 -/

/-- C8: for every pair of points `p` and `q`, the classifications
`p.quater q` and `q.quater p` are point-reflections of each other:
TopLeft pairs with BottomRight, TopRight with BottomLeft, and AxisX,
AxisY, Centre are each their own reflection. -/
theorem quater_point_reflection (p q : Point) :
    (Point.quater p q).reflect = Point.quater q p := by
  rcases Nat.lt_trichotomy p.x q.x with hx | hx | hx <;>
    rcases Nat.lt_trichotomy p.y q.y with hy | hy | hy
  · rw [quater_br hx hy, quater_tl hx hy]; rfl
  · rw [quater_axisX_right hx hy, quater_axisX_left hx hy.symm]; rfl
  · rw [quater_tr hx hy, quater_bl hx hy]; rfl
  · rw [quater_axisY_up hx hy, quater_axisY_down hx.symm hy]; rfl
  · rw [quater_centre hx hy, quater_centre hx.symm hy.symm]; rfl
  · rw [quater_axisY_down hx hy, quater_axisY_up hx.symm hy]; rfl
  · rw [quater_bl hx hy, quater_tr hx hy]; rfl
  · rw [quater_axisX_left hx hy, quater_axisX_right hx hy.symm]; rfl
  · rw [quater_tl hx hy, quater_br hx hy]; rfl

/-! ## Claim C2 -/

/-- C2: for points with both coordinates distinct,
`Rectangle::from_two_points` returns a rectangle with strictly positive
width and height whose two opposite corners are the inputs in some order;
for equal points or points sharing a coordinate it returns `None`. -/
theorem rectangle_from_two_points_spec (a b : Point) :
    (a.x ≠ b.x ∧ a.y ≠ b.y →
      ∃ r, Rectangle.fromTwoPoints a b = some r ∧
        0 < r.width ∧ 0 < r.height ∧
        ((r.corner .TopLeft = a ∧ r.corner .BottomRight = b) ∨
         (r.corner .TopLeft = b ∧ r.corner .BottomRight = a) ∨
         (r.corner .TopRight = a ∧ r.corner .BottomLeft = b) ∨
         (r.corner .TopRight = b ∧ r.corner .BottomLeft = a))) ∧
    ((a.x = b.x ∨ a.y = b.y) → Rectangle.fromTwoPoints a b = none) := by
  constructor
  · rintro ⟨hx, hy⟩
    rcases Nat.lt_or_gt_of_ne hx with hx | hx <;>
      rcases Nat.lt_or_gt_of_ne hy with hy | hy
    · refine ⟨_, ftp_br hx hy, by simp; omega, by simp; omega, Or.inl ⟨rfl, ?_⟩⟩
      apply point_eq <;> simp [Rectangle.corner] <;> omega
    · refine ⟨_, ftp_tr hx hy, by simp; omega, by simp; omega,
        Or.inr (Or.inr (Or.inr ⟨?_, ?_⟩))⟩ <;>
      · apply point_eq <;> simp [Rectangle.corner] <;> omega
    · refine ⟨_, ftp_bl hx hy, by simp; omega, by simp; omega,
        Or.inr (Or.inr (Or.inl ⟨?_, ?_⟩))⟩ <;>
      · apply point_eq <;> simp [Rectangle.corner] <;> omega
    · refine ⟨_, ftp_tl hx hy, by simp; omega, by simp; omega,
        Or.inr (Or.inl ⟨rfl, ?_⟩)⟩
      apply point_eq <;> simp [Rectangle.corner] <;> omega
  · exact ftp_none

/-- Witness for C2 at the concrete pairs (5,5),(10,8) and (5,5),(10,5). -/
theorem rectangle_from_two_points_spec_witness :
    (∃ r, Rectangle.fromTwoPoints ⟨5, 5⟩ ⟨10, 8⟩ = some r ∧
        0 < r.width ∧ 0 < r.height ∧
        ((r.corner .TopLeft = ⟨5, 5⟩ ∧ r.corner .BottomRight = ⟨10, 8⟩) ∨
         (r.corner .TopLeft = ⟨10, 8⟩ ∧ r.corner .BottomRight = ⟨5, 5⟩) ∨
         (r.corner .TopRight = ⟨5, 5⟩ ∧ r.corner .BottomLeft = ⟨10, 8⟩) ∨
         (r.corner .TopRight = ⟨10, 8⟩ ∧ r.corner .BottomLeft = ⟨5, 5⟩))) ∧
    Rectangle.fromTwoPoints ⟨5, 5⟩ ⟨10, 5⟩ = none :=
  ⟨(rectangle_from_two_points_spec ⟨5, 5⟩ ⟨10, 8⟩).1 (by decide),
   (rectangle_from_two_points_spec ⟨5, 5⟩ ⟨10, 5⟩).2 (by decide)⟩

/-! ## Claim C10 -/

/-- C10: `Point::into_figure` never reaches its panicking `.expect`
branches, and the variant of its result matches the quadrant of the
second point relative to the first: a rectangle for the four diagonal
quadrants, a line for AxisX/AxisY, the point itself for Centre. -/
theorem into_figure_total_matches_quater (a b : Point) :
    ∃ f, Point.intoFigure a b = some f ∧
      figureMatchesQuater f (Point.quater a b) = true := by
  rcases Nat.lt_trichotomy a.x b.x with hx | hx | hx <;>
    rcases Nat.lt_trichotomy a.y b.y with hy | hy | hy
  · have hq := quater_br hx hy
    refine ⟨.Rectangle ⟨a, b.x - a.x, b.y - a.y⟩, ?_, ?_⟩
    · unfold Point.intoFigure
      rw [hq, ftp_br hx hy]
    · rw [hq]; rfl
  · have hq := quater_axisX_right hx hy
    obtain ⟨l, hl⟩ := line_fromTwoPoints_isSome (Or.inr hy)
    refine ⟨.Line l, ?_, ?_⟩
    · unfold Point.intoFigure
      rw [hq, hl]
    · rw [hq]; rfl
  · have hq := quater_tr hx hy
    refine ⟨.Rectangle ⟨⟨a.x, b.y⟩, b.x - a.x, a.y - b.y⟩, ?_, ?_⟩
    · unfold Point.intoFigure
      rw [hq, ftp_tr hx hy]
    · rw [hq]; rfl
  · have hq := quater_axisY_up hx hy
    obtain ⟨l, hl⟩ := line_fromTwoPoints_isSome (Or.inl hx)
    refine ⟨.Line l, ?_, ?_⟩
    · unfold Point.intoFigure
      rw [hq, hl]
    · rw [hq]; rfl
  · have hq := quater_centre hx hy
    refine ⟨.Point a, ?_, ?_⟩
    · unfold Point.intoFigure
      rw [hq]
    · rw [hq]; rfl
  · have hq := quater_axisY_down hx hy
    obtain ⟨l, hl⟩ := line_fromTwoPoints_isSome (Or.inl hx)
    refine ⟨.Line l, ?_, ?_⟩
    · unfold Point.intoFigure
      rw [hq, hl]
    · rw [hq]; rfl
  · have hq := quater_bl hx hy
    refine ⟨.Rectangle ⟨⟨b.x, a.y⟩, a.x - b.x, b.y - a.y⟩, ?_, ?_⟩
    · unfold Point.intoFigure
      rw [hq, ftp_bl hx hy]
    · rw [hq]; rfl
  · have hq := quater_axisX_left hx hy
    obtain ⟨l, hl⟩ := line_fromTwoPoints_isSome (Or.inr hy)
    refine ⟨.Line l, ?_, ?_⟩
    · unfold Point.intoFigure
      rw [hq, hl]
    · rw [hq]; rfl
  · have hq := quater_tl hx hy
    refine ⟨.Rectangle ⟨b, a.x - b.x, a.y - b.y⟩, ?_, ?_⟩
    · unfold Point.intoFigure
      rw [hq, ftp_tl hx hy]
    · rw [hq]; rfl

/-! ## Claim C1 -/

/-- C1 (code bug): releasing the pointer in `BeginSelection` with anchor
and current equal, or sharing a coordinate, does not reset the state to
`Waiting` — the source executes `todo!(..)` and panics (modelled as
`none`), exactly as its own `BUG:` comment admits. -/
theorem release_degenerate_hits_todo_panic :
    on_mouse_release (.BeginSelection ⟨5, 5⟩ ⟨5, 5⟩ none) = none ∧
    on_mouse_release (.BeginSelection ⟨5, 5⟩ ⟨10, 5⟩ none) = none := by
  decide

/-! ## Claim C9 -/

/-- C9 counterexample: in state `Waiting` the redraw pass re-dims and
re-declares full-surface damage on every call, so a second call with
nothing changed still declares damage (here on a 1x1 surface). -/
theorem redraw_waiting_redamages_cex :
    (on_redraw (on_redraw .Waiting ⟨[9, 9, 9, 9], 1, 1, true⟩ [0, 0, 0, 0]).state
        ⟨[9, 9, 9, 9], 1, 1, true⟩
        (on_redraw .Waiting ⟨[9, 9, 9, 9], 1, 1, true⟩ [0, 0, 0, 0]).canvas).damage ≠
      [] := by
  decide

/-- C9 amended: in every selection state other than `Waiting`, running the
redraw pass twice in a row (the pending position unchanged in between)
leaves the canvas pixel-for-pixel identical after the second call,
declares no damage, and does not commit on the second call. -/
theorem redraw_twice_noop_off_waiting (st : SelectionState) (ctx : SelCtx)
    (canvas : List Nat) (h : st ≠ .Waiting) :
    on_redraw (on_redraw st ctx canvas).state ctx
        (on_redraw st ctx canvas).canvas =
      ⟨(on_redraw st ctx canvas).state, (on_redraw st ctx canvas).canvas,
        [], false⟩ := by
  unfold on_redraw
  cases hA : ctx.canvasAvailable
  · rfl
  · cases st with
    | Waiting => exact absurd rfl h
    | BeginSelection i c p =>
      cases p with
      | none => rfl
      | some pd =>
        by_cases hcp : c = pd
        · simp [hcp]
        · simp [hcp]
    | SelectionCompleted r => rfl
    | Abort => rfl

/-- Witness for C9 amended, on the drawing path of a 2x2 surface. -/
theorem redraw_twice_noop_off_waiting_witness :
    on_redraw
        (on_redraw (.BeginSelection ⟨0, 0⟩ ⟨0, 0⟩ (some ⟨1, 1⟩))
          ⟨List.replicate 16 255, 2, 2, true⟩ (List.replicate 16 0)).state
        ⟨List.replicate 16 255, 2, 2, true⟩
        (on_redraw (.BeginSelection ⟨0, 0⟩ ⟨0, 0⟩ (some ⟨1, 1⟩))
          ⟨List.replicate 16 255, 2, 2, true⟩ (List.replicate 16 0)).canvas =
      ⟨(on_redraw (.BeginSelection ⟨0, 0⟩ ⟨0, 0⟩ (some ⟨1, 1⟩))
          ⟨List.replicate 16 255, 2, 2, true⟩ (List.replicate 16 0)).state,
       (on_redraw (.BeginSelection ⟨0, 0⟩ ⟨0, 0⟩ (some ⟨1, 1⟩))
          ⟨List.replicate 16 255, 2, 2, true⟩ (List.replicate 16 0)).canvas,
       [], false⟩ :=
  redraw_twice_noop_off_waiting (.BeginSelection ⟨0, 0⟩ ⟨0, 0⟩ (some ⟨1, 1⟩))
    ⟨List.replicate 16 255, 2, 2, true⟩ (List.replicate 16 0) (by decide)

/-! ## Claim C3 -/

/-- C3 counterexample: a pointer-move event received in `BeginSelection`
does write to the presentation buffer — on a 2x2 surface with the canvas
acquirable, moving from (0,0) to (1,1) changes the canvas bytes during the
move handler itself, before any compositor frame event. -/
theorem mouse_move_draws_cex :
    (on_mouse_move (.BeginSelection ⟨0, 0⟩ ⟨0, 0⟩ none)
        ⟨List.replicate 16 255, 2, 2, true⟩ (List.replicate 16 0)
        ⟨1, 1⟩).canvas ≠
      List.replicate 16 0 := by
  decide

/-- C3 amended: a pointer-move event in `BeginSelection` records the new
position as the pending point and synchronously invokes the same redraw
pass that frame events run; the buffer is therefore written during the
move handler whenever the canvas is acquirable and the position changed,
not only on compositor frame events. -/
theorem mouse_move_records_pending_and_redraws (i c : Point) (p : Option Point)
    (ctx : SelCtx) (canvas : List Nat) (pos : Point) :
    on_mouse_move (.BeginSelection i c p) ctx canvas pos =
      on_redraw (.BeginSelection i c (some pos)) ctx canvas ∧
    (on_mouse_move (.BeginSelection i c p) ctx canvas pos).state.pendingOf =
      some pos := by
  constructor
  · rfl
  · unfold on_mouse_move on_redraw
    cases hA : ctx.canvasAvailable
    · rfl
    · by_cases hcp : c = pos
      · simp [hcp, SelectionState.pendingOf]
      · simp [hcp, SelectionState.pendingOf]

/-! ## Claim C6 -/

/-- C6: Escape in `Waiting` moves to the terminal `Abort` state; Escape in
`BeginSelection` resets to `Waiting` — never `Abort` — and immediately
invokes the redraw pass, which (when the canvas is acquirable) dims the
whole captured image, damages the full surface, and commits. -/
theorem escape_key_transitions (ctx : SelCtx) (canvas : List Nat) :
    on_key_press .escape .Waiting ctx canvas = ⟨.Abort, canvas, [], false⟩ ∧
    (∀ i c p,
      (on_key_press .escape (.BeginSelection i c p) ctx canvas).state =
        .Waiting ∧
      (on_key_press .escape (.BeginSelection i c p) ctx canvas).state ≠
        .Abort ∧
      (ctx.canvasAvailable = true →
        on_key_press .escape (.BeginSelection i c p) ctx canvas =
          ⟨.Waiting,
           (dim_rect ⟨⟨0, 0⟩, ctx.width, ctx.height⟩ canvas ctx.image
             ctx.width true).1,
           [⟨⟨0, 0⟩, ctx.width, ctx.height⟩], true⟩)) := by
  refine ⟨rfl, fun i c p => ⟨?_, ?_, ?_⟩⟩
  · unfold on_key_press on_redraw
    cases ctx.canvasAvailable <;> rfl
  · unfold on_key_press on_redraw
    cases ctx.canvasAvailable <;> simp
  · intro hA
    unfold on_key_press on_redraw
    rw [hA]
    simp [dim_rect]

/-- Witness for C6 on a 1x1 surface with the canvas acquirable. -/
theorem escape_key_transitions_witness :
    on_key_press .escape .Waiting ⟨[9, 9, 9, 9], 1, 1, true⟩ [0, 0, 0, 0] =
      ⟨.Abort, [0, 0, 0, 0], [], false⟩ ∧
    on_key_press .escape (.BeginSelection ⟨0, 0⟩ ⟨0, 0⟩ none)
        ⟨[9, 9, 9, 9], 1, 1, true⟩ [0, 0, 0, 0] =
      ⟨.Waiting,
       (dim_rect ⟨⟨0, 0⟩, 1, 1⟩ [0, 0, 0, 0] [9, 9, 9, 9] 1 true).1,
       [⟨⟨0, 0⟩, 1, 1⟩], true⟩ :=
  ⟨(escape_key_transitions ⟨[9, 9, 9, 9], 1, 1, true⟩ [0, 0, 0, 0]).1,
   ((escape_key_transitions ⟨[9, 9, 9, 9], 1, 1, true⟩ [0, 0, 0, 0]).2
     ⟨0, 0⟩ ⟨0, 0⟩ none).2.2 rfl⟩

/-! ## Claim C5 -/

theorem runFrameEvents_image_origin :
    ∀ (es : List FrameEvent) (s s1 : ScreenshotState), s.image = none →
      runFrameEvents s es = .ok s1 → s1.image.isSome = true →
      (s.buffer.isSome = true ∧ ∃ raw, FrameEvent.readyEv raw ∈ es) ∨
      (∃ f l1 l2, es = l1 ++ .bufferEv f :: l2 ∧
        ∃ raw, FrameEvent.readyEv raw ∈ l2) := by
  intro es
  induction es with
  | nil =>
    intro s s1 h hr hs
    unfold runFrameEvents at hr
    cases hr
    rw [h] at hs
    exact absurd hs (by decide)
  | cons e es ih =>
    intro s s1 h hr hs
    cases e with
    | bufferEv f =>
      have hr1 : runFrameEvents
          { s with buffer_format := some f, buffer := some () } es = .ok s1 := hr
      have h1 : ({ s with buffer_format := some f, buffer := some () } : ScreenshotState).image = none := h
      rcases ih _ s1 h1 hr1 hs with ⟨_, raw, hmem⟩ | ⟨f2, l1, l2, heq, raw, hmem⟩
      · exact Or.inr ⟨f, [], es, rfl, raw, hmem⟩
      · exact Or.inr ⟨f2, .bufferEv f :: l1, l2, by rw [heq]; rfl, raw, hmem⟩
    | readyEv raw =>
      cases hb : s.buffer with
      | none =>
        simp [runFrameEvents, zwlr_screencopy_frame_event, hb] at hr
      | some u =>
        exact Or.inl ⟨by simp [hb], raw, List.mem_cons_self _ _⟩
    | otherEv =>
      have hr1 : runFrameEvents s es = .ok s1 := hr
      rcases ih s s1 h hr1 hs with ⟨hbuf, raw, hmem⟩ | ⟨f2, l1, l2, heq, raw, hmem⟩
      · exact Or.inl ⟨hbuf, raw, List.mem_cons_of_mem _ hmem⟩
      · exact Or.inr ⟨f2, .otherEv :: l1, l2, by rw [heq]; rfl, raw, hmem⟩

/-- C5: a `Ready` completion received while no buffer has been allocated is
a fatal failure (the source panics), and any run of the capture phase that
produces an image contains a `Buffer` declaration followed, later, by a
`Ready` completion. -/
theorem ready_requires_buffer :
    (∀ s raw, s.buffer = none →
      zwlr_screencopy_frame_event s (.readyEv raw) =
        .error "zwlr_screencopy_manager_v1 send ready event without any buffers") ∧
    (∀ es s1, runFrameEvents screenshotInit es = .ok s1 →
      s1.image.isSome = true →
      ∃ f l1 l2, es = l1 ++ .bufferEv f :: l2 ∧
        ∃ raw, FrameEvent.readyEv raw ∈ l2) := by
  constructor
  · intro s raw hb
    unfold zwlr_screencopy_frame_event
    rw [hb]
  · intro es s1 hr hs
    rcases runFrameEvents_image_origin es screenshotInit s1 rfl hr hs with
      ⟨hbuf, _⟩ | h
    · exact absurd hbuf (by decide)
    · exact h

/-- Witness for C5: ready-before-buffer fails on the initial state, and the
two-event handshake produces an image with the required event order. -/
theorem ready_requires_buffer_witness :
    zwlr_screencopy_frame_event screenshotInit (.readyEv [1, 2, 3, 4]) =
      .error "zwlr_screencopy_manager_v1 send ready event without any buffers" ∧
    (∃ f l1 l2,
      [FrameEvent.bufferEv .Xrgb8888, FrameEvent.readyEv [1, 2, 3, 4]] =
        l1 ++ .bufferEv f :: l2 ∧
      ∃ raw, FrameEvent.readyEv raw ∈ l2) :=
  ⟨ready_requires_buffer.1 screenshotInit [1, 2, 3, 4] rfl,
   ready_requires_buffer.2 [.bufferEv .Xrgb8888, .readyEv [1, 2, 3, 4]]
     ⟨some [1, 2, 3, 4], some (), some .Xrgb8888⟩ rfl rfl⟩

/-! ## Claim C4 -/

/-- C4 counterexample: the capture handshake with the blue-first format
Xrgb8888 exposes the raw bytes unchanged — the first pixel of the exposed
image is not red/blue swapped relative to the raw input — and the
red-first 32-bit format Abgr8888, which the claim calls supported, fails
fatally. -/
theorem capture_no_swap_cex :
    runFrameEvents screenshotInit
        [.bufferEv .Xrgb8888, .readyEv [10, 20, 30, 40]] =
      .ok ⟨some [10, 20, 30, 40], some (), some .Xrgb8888⟩ ∧
    specSwapRedBlue [10, 20, 30, 40] ≠ [10, 20, 30, 40] ∧
    runFrameEvents screenshotInit
        [.bufferEv .Abgr8888, .readyEv [10, 20, 30, 40]] =
      .error "got yet unimplemented buffer format, it is a bug" := by
  refine ⟨rfl, by decide, rfl⟩

/-- C4 amended: with a buffer allocated, a `Ready` completion under either
of the two accepted blue-first 32-bit formats (Xrgb8888, Argb8888) stores
the raw bytes unchanged as the captured image — no red/blue swap happens
in the capture phase (the swap to red-first occurs only in the excluded
encoding layer) — and any other format, red-first ones included, is a
fatal failure. -/
theorem capture_raw_passthrough :
    (∀ s raw, s.buffer = some () →
      (s.buffer_format = some .Xrgb8888 ∨ s.buffer_format = some .Argb8888) →
      zwlr_screencopy_frame_event s (.readyEv raw) =
        .ok { s with image := some raw }) ∧
    (∀ s raw f, s.buffer = some () → s.buffer_format = some f →
      f ≠ .Xrgb8888 → f ≠ .Argb8888 →
      zwlr_screencopy_frame_event s (.readyEv raw) =
        .error "got yet unimplemented buffer format, it is a bug") := by
  constructor
  · intro s raw hb hf
    unfold zwlr_screencopy_frame_event
    rw [hb]
    rcases hf with hf | hf <;> rw [hf]
  · intro s raw f hb hf h1 h2
    unfold zwlr_screencopy_frame_event
    rw [hb, hf]
    cases f with
    | Xrgb8888 => exact absurd rfl h1
    | Argb8888 => exact absurd rfl h2
    | Xbgr8888 => rfl
    | Abgr8888 => rfl
    | otherFormat id => rfl

/-- Witness for C4 amended at concrete states: raw pass-through on
Xrgb8888 and fatal failure on the red-first Abgr8888. -/
theorem capture_raw_passthrough_witness :
    zwlr_screencopy_frame_event ⟨none, some (), some .Xrgb8888⟩
        (.readyEv [10, 20, 30, 40]) =
      .ok ⟨some [10, 20, 30, 40], some (), some .Xrgb8888⟩ ∧
    zwlr_screencopy_frame_event ⟨none, some (), some .Abgr8888⟩
        (.readyEv [10, 20, 30, 40]) =
      .error "got yet unimplemented buffer format, it is a bug" :=
  ⟨capture_raw_passthrough.1 ⟨none, some (), some .Xrgb8888⟩
      [10, 20, 30, 40] rfl (Or.inl rfl),
   capture_raw_passthrough.2 ⟨none, some (), some .Abgr8888⟩
      [10, 20, 30, 40] .Abgr8888 rfl rfl (by decide) (by decide)⟩

/-! ## Claim C7 -/

/-- C7: advancing Base to Partial returns the distinct errors NoOutput,
NoOutputInfo and NoOutputLogicalSize for the three respective missing
preconditions, each leaving the context unadvanced; and with all
preconditions met, advancing from a wrong stage panics (fails loudly) in
both transitions instead of silently doing nothing. -/
theorem context_advance_errors (env : WlEnv) (ctx : CtxKind) :
    (env.hasOutput = false →
      initializePartialCtx env ctx = .err .NoOutput ctx) ∧
    (env.hasOutput = true → env.hasOutputInfo = false →
      initializePartialCtx env ctx = .err .NoOutputInfo ctx) ∧
    (env.hasOutput = true → env.hasOutputInfo = true →
      env.logicalSize = none →
      initializePartialCtx env ctx = .err .NoOutputLogicalSize ctx) ∧
    (AppError.NoOutput ≠ AppError.NoOutputInfo ∧
     AppError.NoOutput ≠ AppError.NoOutputLogicalSize ∧
     AppError.NoOutputInfo ≠ AppError.NoOutputLogicalSize) ∧
    (∀ w h, env.hasOutput = true → env.hasOutputInfo = true →
      env.logicalSize = some (w, h) → env.shmOk = true → env.poolOk = true →
      ctx ≠ .baseCtx →
      initializePartialCtx env ctx =
        .panicked "attempt to initialize context stage that is already initialized") ∧
    (env.compositorOk = true → env.layerShellOk = true → ctx ≠ .partialCtx →
      initializeFullCtx env ctx =
        .panicked "attempt to initialize full context on wrong stage") := by
  refine ⟨?_, ?_, ?_, ⟨by decide, by decide, by decide⟩, ?_, ?_⟩
  · intro h
    simp [initializePartialCtx, h]
  · intro h1 h2
    simp [initializePartialCtx, h1, h2]
  · intro h1 h2 h3
    simp [initializePartialCtx, h1, h2, h3]
  · intro w h h1 h2 h3 h4 h5 hctx
    simp only [initializePartialCtx, h1, h2, h3, h4, h5]
    cases ctx with
    | baseCtx => exact absurd rfl hctx
    | nilCtx => simp
    | partialCtx => simp
    | fullCtx => simp
  · intro h1 h2 hctx
    simp only [initializeFullCtx, h1, h2]
    cases ctx with
    | partialCtx => exact absurd rfl hctx
    | nilCtx => simp
    | baseCtx => simp
    | fullCtx => simp

/-- Witness for C7 at concrete environments and stages. -/
theorem context_advance_errors_witness :
    initializePartialCtx ⟨false, false, none, false, false, false, false⟩
        .baseCtx = .err .NoOutput .baseCtx ∧
    initializePartialCtx ⟨true, false, none, false, false, false, false⟩
        .baseCtx = .err .NoOutputInfo .baseCtx ∧
    initializePartialCtx ⟨true, true, none, false, false, false, false⟩
        .baseCtx = .err .NoOutputLogicalSize .baseCtx ∧
    initializePartialCtx ⟨true, true, some (1920, 1080), true, true, true, true⟩
        .fullCtx =
      .panicked "attempt to initialize context stage that is already initialized" ∧
    initializeFullCtx ⟨true, true, some (1920, 1080), true, true, true, true⟩
        .baseCtx =
      .panicked "attempt to initialize full context on wrong stage" :=
  ⟨(context_advance_errors ⟨false, false, none, false, false, false, false⟩
      .baseCtx).1 rfl,
   (context_advance_errors ⟨true, false, none, false, false, false, false⟩
      .baseCtx).2.1 rfl rfl,
   (context_advance_errors ⟨true, true, none, false, false, false, false⟩
      .baseCtx).2.2.1 rfl rfl rfl,
   (context_advance_errors ⟨true, true, some (1920, 1080), true, true, true, true⟩
      .fullCtx).2.2.2.2.1 1920 1080 rfl rfl rfl rfl rfl (by decide),
   (context_advance_errors ⟨true, true, some (1920, 1080), true, true, true, true⟩
      .baseCtx).2.2.2.2.2 rfl rfl (by decide)⟩
